import Mathlib

/-!
Shallow embedding of the GPU path-rendering dispatch layer
(`src/gpu/GrPathRenderer.h`).

Modelling conventions:
* C++ references and pointers to immutable collaborators become plain Lean
  values; hence the pointer-non-nullity checks of the `validate()` helpers
  are not representable and only their semantic content (`!fPath->isEmpty()`)
  is modelled.  The one pointer field the header leaves uninitialized
  (`DrawPathArgs::fClip` in the default `onStencilPath`) is modelled as an
  `Option` so that the synthesized request is a faithful value.
* `SkASSERT` halts the program in debug builds and is a no-op in release
  builds; every member function that contains an assertion is therefore
  embedded as a function of an extra `dbg : Bool` flag returning an
  `Option` result, `none` meaning an assertion failure halted execution.
* `SkScalar` is embedded as `ℚ`: the dispatch layer itself performs no
  scalar arithmetic, it only moves scalar values around.
* virtual dispatch over subclasses becomes a record of functions
  (`GrPathRenderer` below); an overridable virtual with a default body is an
  `Option`-valued field, `none` meaning "subclass does not override".
-/

abbrev Scalar := ℚ

/-- A device-space rectangle (`SkRect`). -/
structure SkRect where
  fLeft : Scalar
  fTop : Scalar
  fRight : Scalar
  fBottom : Scalar
  deriving DecidableEq

/-- `SkMatrix`, consumed opaquely by this layer: the only operation the
dispatch layer (and its spec-modelled bounds helper) needs is mapping a
rectangle through the transform. -/
structure SkMatrix where
  mapRect : SkRect → SkRect

inductive SkPathFillType where
  | winding
  | evenOdd
  | inverseWinding
  | inverseEvenOdd
  deriving DecidableEq

/-- The path value as consumed through this layer's narrow interface:
fill rule, emptiness, and (for the bounds helper) its control bounds. -/
structure SkPath where
  fillType : SkPathFillType
  isEmpty : Bool
  bounds : SkRect
  deriving DecidableEq

def SkPath.isInverseFillType (p : SkPath) : Bool :=
  match p.fillType with
  | .inverseWinding => true
  | .inverseEvenOdd => true
  | _ => false

/-- `GrPathRenderer::StencilSupport` (constructor order as in the enum). -/
inductive StencilSupport where
  | kNoSupport
  | kStencilOnly
  | kNoRestriction
  deriving DecidableEq

/-- Numeric level of a stencil-support value, following the enum order:
`kNoSupport < kStencilOnly < kNoRestriction`. -/
def StencilSupport.level : StencilSupport → Nat
  | .kNoSupport => 0
  | .kStencilOnly => 1
  | .kNoRestriction => 2

inductive GrUserStencilTest where
  | kAlways
  | kNever
  | kEqual
  deriving DecidableEq

inductive GrUserStencilOp where
  | kKeep
  | kZero
  | kReplace
  deriving DecidableEq

/-- `GrUserStencilSettings` in the `StaticInit` field order:
ref, test, test mask, pass op, fail op, write mask.  The `unused` flag is
modelled from the spec: the settings bundle "may be unused, meaning no
externally imposed stencil semantics" (`GrUserStencilSettings.h` is not part
of this source tree). -/
structure GrUserStencilSettings where
  fRef : Nat
  fTest : GrUserStencilTest
  fTestMask : Nat
  fPassOp : GrUserStencilOp
  fFailOp : GrUserStencilOp
  fWriteMask : Nat
  unused : Bool
  deriving DecidableEq

def GrUserStencilSettings.isUnused (s : GrUserStencilSettings) : Bool :=
  s.unused

/-- The always-pass, replace-with-0xffff rule synthesized by the default
`onStencilPath`. -/
def kIncrementStencil : GrUserStencilSettings :=
  { fRef := 0xffff
    fTest := .kAlways
    fTestMask := 0xffff
    fPassOp := .kReplace
    fFailOp := .kReplace
    fWriteMask := 0xffff
    unused := false }

abbrev GrColor := Nat

def GrColor_WHITE : GrColor := 0xFFFFFFFF

/-- `GrPaint` is consumed opaquely; `GrPaint.default` is the
default-constructed paint built by the default `onStencilPath`. -/
inductive GrPaint where
  | default
  deriving DecidableEq

structure GrShaderCaps where
  tag : Nat
  deriving DecidableEq

structure GrCaps where
  shaderCaps : GrShaderCaps
  deriving DecidableEq

structure GrResourceProvider where
  caps : GrCaps
  deriving DecidableEq

structure GrDrawContext where
  isStencilBufferMultisampled : Bool
  tag : Nat
  deriving DecidableEq

structure GrClip where
  tag : Nat
  deriving DecidableEq

structure GrFixedClip where
  tag : Nat
  deriving DecidableEq

/-- `SkStrokeRec::Style`. -/
inductive StrokeStyle where
  | kHairline
  | kFill
  | kStroke
  | kStrokeAndFill
  deriving DecidableEq

/-- The slice of `SkStrokeRec` this layer reads: the style classification and
the stroke width. -/
structure SkStrokeRec where
  style : StrokeStyle
  width : Scalar
  deriving DecidableEq

def SkStrokeRec.getStyle (s : SkStrokeRec) : StrokeStyle :=
  s.style

def SkStrokeRec.isHairlineStyle (s : SkStrokeRec) : Bool :=
  s.style == .kHairline

/-- The slice of `GrStyle` this layer reads: whether a path effect is
attached, and the stroke record. -/
structure GrStyle where
  pathEffect : Bool
  strokeRec : SkStrokeRec
  deriving DecidableEq

/-- A simple fill: no path effect and a fill-style stroke record. -/
def GrStyle.isSimpleFill (s : GrStyle) : Bool :=
  !s.pathEffect && s.strokeRec.style == .kFill

/-- `GrStyle::SimpleFill()`. -/
def GrStyle.SimpleFill : GrStyle :=
  { pathEffect := false, strokeRec := { style := .kFill, width := 0 } }

/-- Args to `canDrawPath()`. -/
structure CanDrawPathArgs where
  fShaderCaps : GrShaderCaps
  fViewMatrix : SkMatrix
  fPath : SkPath
  fStyle : GrStyle
  fAntiAlias : Bool
  fHasUserStencilSettings : Bool
  fIsStencilBufferMSAA : Bool

/-- `CanDrawPathArgs::validate()`: only the semantic check
`!fPath->isEmpty()` is representable (the others assert pointer
non-nullity). -/
def CanDrawPathArgs.validate (a : CanDrawPathArgs) : Bool :=
  !a.fPath.isEmpty

/-- Args to `drawPath()`.  `fClip` is `Option` because the default
`onStencilPath` builds a request without ever setting this field. -/
structure DrawPathArgs where
  fResourceProvider : GrResourceProvider
  fPaint : GrPaint
  fUserStencilSettings : GrUserStencilSettings
  fDrawContext : GrDrawContext
  fClip : Option GrClip
  fColor : GrColor
  fViewMatrix : SkMatrix
  fPath : SkPath
  fStyle : GrStyle
  fAntiAlias : Bool
  fGammaCorrect : Bool

/-- `DrawPathArgs::validate()`, semantic content only. -/
def DrawPathArgs.validate (a : DrawPathArgs) : Bool :=
  !a.fPath.isEmpty

/-- Args to `stencilPath()`. -/
structure StencilPathArgs where
  fResourceProvider : GrResourceProvider
  fDrawContext : GrDrawContext
  fClip : GrFixedClip
  fViewMatrix : SkMatrix
  fPath : SkPath
  fIsAA : Bool

/-- `StencilPathArgs::validate()`, semantic content only. -/
def StencilPathArgs.validate (a : StencilPathArgs) : Bool :=
  !a.fPath.isEmpty

/-- A concrete `GrPathRenderer` subclass, as the record of its virtual
methods.  `overrideGetStencilSupport` / `overrideStencilPath` are `none`
when the subclass does not override the corresponding virtual. -/
structure GrPathRenderer where
  overrideGetStencilSupport : Option (SkPath → StencilSupport)
  onCanDrawPath : CanDrawPathArgs → Bool
  onDrawPath : DrawPathArgs → Bool
  overrideStencilPath : Option (StencilPathArgs → Option Bool)

/-- `SkASSERT(cond)`: halts (`none`) iff running in a debug build with the
condition false. -/
def skAssert (dbg : Bool) (cond : Bool) : Option Unit :=
  if dbg && !cond then none else some ()

/-- Effective `onGetStencilSupport`: the override if present, else the base
default, which returns `kNoRestriction`. -/
def GrPathRenderer.onGetStencilSupport (r : GrPathRenderer) (path : SkPath) :
    StencilSupport :=
  match r.overrideGetStencilSupport with
  | some f => f path
  | none => .kNoRestriction

/-- `getStencilSupport`: asserts the fill is not inverse, then dispatches to
the per-strategy classifier. -/
def GrPathRenderer.getStencilSupport (r : GrPathRenderer) (dbg : Bool)
    (path : SkPath) : Option StencilSupport := do
  _ ← skAssert dbg (!path.isInverseFillType)
  pure (r.onGetStencilSupport path)

/-- `canDrawPath`: debug-validates the args, then dispatches. -/
def GrPathRenderer.canDrawPath (r : GrPathRenderer) (dbg : Bool)
    (args : CanDrawPathArgs) : Option Bool := do
  _ ← skAssert dbg args.validate
  pure (r.onCanDrawPath args)

/-- The capability query synthesized inside `drawPath`'s debug block
(header lines 159–167). -/
def makeCanDrawArgs (args : DrawPathArgs) : CanDrawPathArgs :=
  { fShaderCaps := args.fResourceProvider.caps.shaderCaps
    fViewMatrix := args.fViewMatrix
    fPath := args.fPath
    fStyle := args.fStyle
    fAntiAlias := args.fAntiAlias
    fHasUserStencilSettings := !args.fUserStencilSettings.isUnused
    fIsStencilBufferMSAA := args.fDrawContext.isStencilBufferMultisampled }

/-- `drawPath`: debug-validates, in debug builds re-derives the capability
query and asserts it, asserts the stencil discipline when user stencil
settings are in use, then dispatches to `onDrawPath`. -/
def GrPathRenderer.drawPath (r : GrPathRenderer) (dbg : Bool)
    (args : DrawPathArgs) : Option Bool := do
  _ ← skAssert dbg args.validate
  if dbg then do
    let can ← r.canDrawPath true (makeCanDrawArgs args)
    _ ← skAssert true can
    if !args.fUserStencilSettings.isUnused then do
      let support ← r.getStencilSupport true args.fPath
      _ ← skAssert true (support == .kNoRestriction)
      _ ← skAssert true args.fStyle.isSimpleFill
      pure (r.onDrawPath args)
    else
      pure (r.onDrawPath args)
  else
    pure (r.onDrawPath args)

/-- The draw request synthesized by the default `onStencilPath`
(header lines 272–284), field by field. -/
def synthesizedStencilDrawArgs (args : StencilPathArgs) : DrawPathArgs :=
  { fResourceProvider := args.fResourceProvider
    fPaint := GrPaint.default
    fUserStencilSettings := kIncrementStencil
    fDrawContext := args.fDrawContext
    fClip := none
    fColor := GrColor_WHITE
    fViewMatrix := args.fViewMatrix
    fPath := args.fPath
    fStyle := GrStyle.SimpleFill
    fAntiAlias := false
    fGammaCorrect := false }

/-- The base-class default `onStencilPath`: build the synthesized request and
route it through `drawPath` (the return value of `drawPath` is surfaced for
observability; the C++ body discards it). -/
def GrPathRenderer.onStencilPathDefault (r : GrPathRenderer) (dbg : Bool)
    (args : StencilPathArgs) : Option Bool :=
  r.drawPath dbg (synthesizedStencilDrawArgs args)

/-- Effective `onStencilPath`: the subclass override if present, else the
base-class default. -/
def GrPathRenderer.onStencilPath (r : GrPathRenderer) (dbg : Bool)
    (args : StencilPathArgs) : Option Bool :=
  match r.overrideStencilPath with
  | some f => f args
  | none => r.onStencilPathDefault dbg args

/-- `stencilPath`: debug-validates, asserts the stencil support is not
`kNoSupport` (the support query itself asserts the fill is not inverse),
then dispatches. -/
def GrPathRenderer.stencilPath (r : GrPathRenderer) (dbg : Bool)
    (args : StencilPathArgs) : Option Bool := do
  _ ← skAssert dbg args.validate
  let support ← r.getStencilSupport dbg args.fPath
  _ ← skAssert dbg (!(support == .kNoSupport))
  r.onStencilPath dbg args

/-- `IsStrokeHairlineOrEquivalent`.  The `SkScalar* outCoverage` out-pointer
is embedded as a `wantCoverage` flag plus an `Option Scalar` result recording
what was written (`none` = no write).  `SkDrawTreatAAStrokeAsHairline` lives
in `SkDrawProcs.h`, outside this source tree; it is taken as a parameter
returning its boolean answer and the coverage it writes when that answer is
true (its contract: the decision does not depend on the pointer, and it
writes only on the true path). -/
def IsStrokeHairlineOrEquivalent
    (skDrawTreatAAStrokeAsHairline : Scalar → SkMatrix → Bool × Scalar)
    (style : GrStyle) (matrix : SkMatrix) (wantCoverage : Bool) :
    Bool × Option Scalar :=
  if style.pathEffect then
    (false, none)
  else if style.strokeRec.isHairlineStyle then
    (true, if wantCoverage then some 1 else none)
  else if style.strokeRec.getStyle == StrokeStyle.kStroke then
    if (skDrawTreatAAStrokeAsHairline style.strokeRec.width matrix).1 then
      (true, if wantCoverage then
               some (skDrawTreatAAStrokeAsHairline style.strokeRec.width matrix).2
             else none)
    else (false, none)
  else
    (false, none)

/-- Modelled from the spec: the body of `GrPathRenderer::GetPathDevBounds`
lives in `GrPathRenderer.cpp`, which is not part of this source tree; the
header declares it and documents "Inverse filled paths will have bounds set
by devSize. Non-inverse path bounds will not necessarily be clipped to
devSize", and the spec says the non-inverse result is the transformed
bounding box of the path geometry and the inverse result is the full device
rectangle. -/
def GetPathDevBounds (path : SkPath) (devW devH : Int) (matrix : SkMatrix) :
    SkRect :=
  if path.isInverseFillType then
    { fLeft := 0, fTop := 0, fRight := (devW : Scalar), fBottom := (devH : Scalar) }
  else
    matrix.mapRect path.bounds

/-- One stencil test, applied to masked operand values. -/
def stencilTestPasses : GrUserStencilTest → Nat → Nat → Bool
  | .kAlways, _, _ => true
  | .kNever, _, _ => false
  | .kEqual, a, b => a == b

/-- One stencil op on a 16-bit stencil value: `op ref writeMask old`. -/
def applyStencilOp : GrUserStencilOp → Nat → Nat → Nat → Nat
  | .kKeep, _, _, old => old
  | .kZero, _, wm, old => old &&& (0xffff ^^^ wm)
  | .kReplace, ref, wm, old => (ref &&& wm) ||| (old &&& (0xffff ^^^ wm))

/-- Modelled from the spec: the per-pixel effect of a user stencil rule on
one stencil value (standard GPU stencil semantics; the GPU back end is
outside this source tree). -/
def GrUserStencilSettings.apply (s : GrUserStencilSettings) (old : Nat) : Nat :=
  if stencilTestPasses s.fTest (old &&& s.fTestMask) (s.fRef &&& s.fTestMask) then
    applyStencilOp s.fPassOp s.fRef s.fWriteMask old
  else
    applyStencilOp s.fFailOp s.fRef s.fWriteMask old

/-- Modelled from the spec: the frame effect of the stencil-only executor on
a stencil buffer (`ℤ × ℤ → Nat`), given the set of pixels covered by the
path.  Rasterization itself is outside this source tree; the default
executor applies `kIncrementStencil` (the rule the header synthesizes) to
exactly the covered pixels and touches nothing else. -/
def stencilOnlyDefaultEffect (covered : Int × Int → Bool)
    (buf : Int × Int → Nat) : Int × Int → Nat :=
  fun p => if covered p then kIncrementStencil.apply (buf p) else buf p

/-! Concrete fixtures used by the witness theorems. -/

def sampleProvider : GrResourceProvider :=
  { caps := { shaderCaps := { tag := 0 } } }

def sampleContext : GrDrawContext :=
  { isStencilBufferMultisampled := false, tag := 0 }

def identityMatrix : SkMatrix :=
  { mapRect := fun r => r }

def samplePath : SkPath :=
  { fillType := .winding, isEmpty := false
    bounds := { fLeft := 0, fTop := 0, fRight := 1, fBottom := 1 } }

def inversePath : SkPath :=
  { fillType := .inverseWinding, isEmpty := false
    bounds := { fLeft := 0, fTop := 0, fRight := 1, fBottom := 1 } }

/-- A strategy with no overrides that accepts and succeeds on everything. -/
def defaultRenderer : GrPathRenderer :=
  { overrideGetStencilSupport := none
    onCanDrawPath := fun _ => true
    onDrawPath := fun _ => true
    overrideStencilPath := none }

/-- A strategy that reports `kStencilOnly` but fails to override the
stencil-only executor. -/
def stencilOnlyRenderer : GrPathRenderer :=
  { overrideGetStencilSupport := some fun _ => .kStencilOnly
    onCanDrawPath := fun _ => true
    onDrawPath := fun _ => true
    overrideStencilPath := none }

def sampleStencilArgs : StencilPathArgs :=
  { fResourceProvider := sampleProvider
    fDrawContext := sampleContext
    fClip := { tag := 0 }
    fViewMatrix := identityMatrix
    fPath := samplePath
    fIsAA := false }

/-! Claim theorems. -/

/-- C4: if the style carries a path effect, `IsStrokeHairlineOrEquivalent`
returns false regardless of the transform; with no path effect and an
explicitly hairline-styled stroke it returns true and writes full coverage
1.0; otherwise it returns true exactly when the stroke style is a plain
stroke and the device-space thin-stroke test accepts, in which case that
test supplies the coverage value. -/
theorem isStrokeHairlineOrEquivalent_cases
    (f : Scalar → SkMatrix → Bool × Scalar) (style : GrStyle)
    (matrix : SkMatrix) (want : Bool) :
    (style.pathEffect = true →
      IsStrokeHairlineOrEquivalent f style matrix want = (false, none)) ∧
    (style.pathEffect = false → style.strokeRec.isHairlineStyle = true →
      IsStrokeHairlineOrEquivalent f style matrix want =
        (true, if want then some 1 else none)) ∧
    (style.pathEffect = false → style.strokeRec.isHairlineStyle = false →
      IsStrokeHairlineOrEquivalent f style matrix want =
        (if style.strokeRec.getStyle == StrokeStyle.kStroke &&
            (f style.strokeRec.width matrix).1 then
          (true, if want then some (f style.strokeRec.width matrix).2 else none)
         else (false, none))) := by
  refine ⟨fun hpe => by simp [IsStrokeHairlineOrEquivalent, hpe],
          fun hpe hh => by simp [IsStrokeHairlineOrEquivalent, hpe, hh],
          fun hpe hh => ?_⟩
  cases hs : style.strokeRec.getStyle == StrokeStyle.kStroke <;>
    cases hr : (f style.strokeRec.width matrix).1 <;>
      simp [IsStrokeHairlineOrEquivalent, hpe, hh, hs, hr]

/-- C10: the boolean answer of `IsStrokeHairlineOrEquivalent` does not depend
on whether a coverage out-pointer is supplied, and with a null out-pointer
no coverage is ever written. -/
theorem isStrokeHairlineOrEquivalent_nullOut
    (f : Scalar → SkMatrix → Bool × Scalar) (style : GrStyle)
    (matrix : SkMatrix) :
    (IsStrokeHairlineOrEquivalent f style matrix false).1 =
      (IsStrokeHairlineOrEquivalent f style matrix true).1 ∧
    (IsStrokeHairlineOrEquivalent f style matrix false).2 = none := by
  cases hpe : style.pathEffect <;>
    cases hh : style.strokeRec.isHairlineStyle <;>
      cases hs : style.strokeRec.getStyle == StrokeStyle.kStroke <;>
        cases hr : (f style.strokeRec.width matrix).1 <;>
          simp [IsStrokeHairlineOrEquivalent, hpe, hh, hs, hr]

/-- C5: for an inverse-fill path, `GetPathDevBounds` is exactly the device
rectangle `[0, W) × [0, H)` independent of the path geometry; for a
non-inverse path it is the transformed bounding box of the path geometry,
not clipped to the device extent. -/
theorem getPathDevBounds_spec (path : SkPath) (devW devH : Int)
    (matrix : SkMatrix) :
    (path.isInverseFillType = true →
      GetPathDevBounds path devW devH matrix =
        { fLeft := 0, fTop := 0, fRight := (devW : Scalar),
          fBottom := (devH : Scalar) }) ∧
    (path.isInverseFillType = false →
      GetPathDevBounds path devW devH matrix = matrix.mapRect path.bounds) := by
  constructor <;> intro h <;> simp [GetPathDevBounds, h]

/-- C6: a strategy that does not override the stencil-support query reports
`kNoRestriction` for every path, and any strategy's reported support level
is at most `kNoRestriction` (an override can only declare weaker support). -/
theorem onGetStencilSupport_default (r : GrPathRenderer) (path : SkPath) :
    (r.overrideGetStencilSupport = none →
      r.onGetStencilSupport path = StencilSupport.kNoRestriction) ∧
    (r.onGetStencilSupport path).level ≤ StencilSupport.kNoRestriction.level := by
  constructor
  · intro h
    simp [GrPathRenderer.onGetStencilSupport, h]
  · cases h : r.onGetStencilSupport path <;> simp [StencilSupport.level]

/-- C7: in a debug build, `getStencilSupport` on an inverse-fill path halts
on the assertion before reaching the per-strategy classifier; for every
path satisfying the precondition the assertion passes in every build mode
and the classifier's answer is returned. -/
theorem getStencilSupport_inverse_assert (r : GrPathRenderer) (path : SkPath) :
    (path.isInverseFillType = true → r.getStencilSupport true path = none) ∧
    (path.isInverseFillType = false →
      ∀ dbg, r.getStencilSupport dbg path =
        some (r.onGetStencilSupport path)) := by
  constructor
  · intro h
    simp [GrPathRenderer.getStencilSupport, skAssert, h]
  · intro h dbg
    cases dbg <;> simp [GrPathRenderer.getStencilSupport, skAssert, h]

/-! Helper projection lemmas (shared). -/

theorem makeCanDrawArgs_fPath (args : DrawPathArgs) :
    (makeCanDrawArgs args).fPath = args.fPath := rfl

theorem synthArgs_fPath (args : StencilPathArgs) :
    (synthesizedStencilDrawArgs args).fPath = args.fPath := rfl

theorem synthArgs_fUserStencilSettings (args : StencilPathArgs) :
    (synthesizedStencilDrawArgs args).fUserStencilSettings = kIncrementStencil :=
  rfl

theorem synthArgs_fStyle (args : StencilPathArgs) :
    (synthesizedStencilDrawArgs args).fStyle = GrStyle.SimpleFill := rfl

theorem kIncrementStencil_isUnused : kIncrementStencil.isUnused = false := rfl

theorem simpleFill_isSimpleFill : GrStyle.SimpleFill.isSimpleFill = true := rfl

/-- C2: in a debug build, `drawPath` completes (without halting on an
assertion) exactly when the request reduced to a capability query via
`makeCanDrawArgs` is accepted and, if the user stencil settings are in use,
the path is non-inverse with `kNoRestriction` support and the style is a
simple fill; in a release build `drawPath` performs none of these checks
and always dispatches to the executor. -/
theorem drawPath_debug_preconditions (r : GrPathRenderer) (args : DrawPathArgs) :
    (r.drawPath false args = some (r.onDrawPath args)) ∧
    (r.drawPath true args = some (r.onDrawPath args) ↔
      (args.fPath.isEmpty = false ∧
       r.onCanDrawPath (makeCanDrawArgs args) = true ∧
       (args.fUserStencilSettings.isUnused = false →
         (args.fPath.isInverseFillType = false ∧
          r.onGetStencilSupport args.fPath = StencilSupport.kNoRestriction ∧
          args.fStyle.isSimpleFill = true)))) := by
  constructor
  · rfl
  · cases hemp : args.fPath.isEmpty <;>
      cases hcan : r.onCanDrawPath (makeCanDrawArgs args) <;>
        cases huse : args.fUserStencilSettings.isUnused <;>
          cases hinv : args.fPath.isInverseFillType <;>
            cases hsup : r.onGetStencilSupport args.fPath <;>
              cases hfill : args.fStyle.isSimpleFill <;>
                simp [GrPathRenderer.drawPath, GrPathRenderer.canDrawPath,
                  GrPathRenderer.getStencilSupport, skAssert,
                  DrawPathArgs.validate, CanDrawPathArgs.validate,
                  makeCanDrawArgs_fPath, hemp, hcan, huse, hinv, hsup, hfill]

/-- C1: for a strategy that does not override the stencil-only executor, the
effective `onStencilPath` is extensionally a direct `drawPath` call on the
synthesized request: the always-pass/replace 0xffff user stencil rule, a
default paint, opaque white color, the simple-fill style, anti-aliasing and
gamma-correction disabled, an unset clip, and the same resource provider,
draw context, view matrix and path as the stencil request. -/
theorem onStencilPath_default_is_drawPath (r : GrPathRenderer) (dbg : Bool)
    (args : StencilPathArgs) (hover : r.overrideStencilPath = none) :
    r.onStencilPath dbg args = r.drawPath dbg
      { fResourceProvider := args.fResourceProvider
        fPaint := GrPaint.default
        fUserStencilSettings :=
          { fRef := 0xffff, fTest := .kAlways, fTestMask := 0xffff
            fPassOp := .kReplace, fFailOp := .kReplace
            fWriteMask := 0xffff, unused := false }
        fDrawContext := args.fDrawContext
        fClip := none
        fColor := 0xFFFFFFFF
        fViewMatrix := args.fViewMatrix
        fPath := args.fPath
        fStyle := { pathEffect := false
                    strokeRec := { style := .kFill, width := 0 } }
        fAntiAlias := false
        fGammaCorrect := false } := by
  simp [GrPathRenderer.onStencilPath, hover, GrPathRenderer.onStencilPathDefault,
    synthesizedStencilDrawArgs, kIncrementStencil, GrColor_WHITE,
    GrStyle.SimpleFill]

/-- C1 witness: the default strategy at a concrete stencil request. -/
theorem onStencilPath_default_is_drawPath_witness :
    defaultRenderer.overrideStencilPath = none ∧
    defaultRenderer.onStencilPath true sampleStencilArgs =
      defaultRenderer.drawPath true
        { fResourceProvider := sampleStencilArgs.fResourceProvider
          fPaint := GrPaint.default
          fUserStencilSettings :=
            { fRef := 0xffff, fTest := .kAlways, fTestMask := 0xffff
              fPassOp := .kReplace, fFailOp := .kReplace
              fWriteMask := 0xffff, unused := false }
          fDrawContext := sampleStencilArgs.fDrawContext
          fClip := none
          fColor := 0xFFFFFFFF
          fViewMatrix := sampleStencilArgs.fViewMatrix
          fPath := sampleStencilArgs.fPath
          fStyle := { pathEffect := false
                      strokeRec := { style := .kFill, width := 0 } }
          fAntiAlias := false
          fGammaCorrect := false } :=
  ⟨rfl, onStencilPath_default_is_drawPath defaultRenderer true sampleStencilArgs rfl⟩

/-- C8: for a valid (non-empty, non-inverse) path, if the strategy reports
`kNoSupport` then in a debug build `stencilPath` halts on the assertion;
if it reports anything else the assertion is unreachable and the
per-strategy stencil implementation is invoked in every build mode. -/
theorem stencilPath_noSupport_assert (r : GrPathRenderer)
    (args : StencilPathArgs) (hemp : args.fPath.isEmpty = false)
    (hinv : args.fPath.isInverseFillType = false) :
    (r.onGetStencilSupport args.fPath = StencilSupport.kNoSupport →
      r.stencilPath true args = none) ∧
    (r.onGetStencilSupport args.fPath ≠ StencilSupport.kNoSupport →
      ∀ dbg, r.stencilPath dbg args = r.onStencilPath dbg args) := by
  constructor
  · intro hsup
    simp [GrPathRenderer.stencilPath, GrPathRenderer.getStencilSupport,
      skAssert, StencilPathArgs.validate, hemp, hinv, hsup]
  · intro hsup dbg
    cases dbg
    · rfl
    · cases hs : r.onGetStencilSupport args.fPath <;>
        simp_all [GrPathRenderer.stencilPath, GrPathRenderer.getStencilSupport,
          skAssert, StencilPathArgs.validate]

/-- C8 witness: a concrete no-restriction strategy at a concrete request. -/
theorem stencilPath_noSupport_assert_witness :
    sampleStencilArgs.fPath.isEmpty = false ∧
    sampleStencilArgs.fPath.isInverseFillType = false ∧
    defaultRenderer.stencilPath true sampleStencilArgs =
      defaultRenderer.onStencilPath true sampleStencilArgs :=
  ⟨rfl, rfl,
    (stencilPath_noSupport_assert defaultRenderer sampleStencilArgs rfl rfl).2
      (by decide) true⟩

/-- C9 counterexample: a strategy reporting `kStencilOnly` that does not
override the stencil-only executor, invoked on a valid non-inverse path.
In a debug build the call halts (`none`) on an assertion raised inside this
layer — the synthesized request carries in-use user stencil settings, so
`drawPath` asserts `kNoRestriction` support and fails — so the misuse IS
runtime-checked in debug builds, contrary to the claim that no build mode
checks it.  In a release build the call goes through unchecked. -/
theorem stencilOnly_misuse_debug_checked :
    stencilOnlyRenderer.stencilPath true sampleStencilArgs = none ∧
    stencilOnlyRenderer.stencilPath false sampleStencilArgs = some true := by
  constructor <;> rfl

/-- C9 amended: in release builds the invariant is not checked — the default
fallback dispatches the synthesized request to the executor even for a
stencil-only strategy — while in debug builds the misuse is caught at this
layer, indirectly, by `drawPath`'s assertion that the strategy reports
`kNoRestriction` when the (synthesized, in-use) user stencil settings are
present. -/
theorem stencilOnly_misuse_behavior (r : GrPathRenderer)
    (args : StencilPathArgs) (hover : r.overrideStencilPath = none)
    (hsup : r.onGetStencilSupport args.fPath = StencilSupport.kStencilOnly)
    (hemp : args.fPath.isEmpty = false)
    (hinv : args.fPath.isInverseFillType = false) :
    r.stencilPath true args = none ∧
    r.stencilPath false args =
      some (r.onDrawPath (synthesizedStencilDrawArgs args)) := by
  constructor
  · cases hcan : r.onCanDrawPath (makeCanDrawArgs (synthesizedStencilDrawArgs args)) <;>
      simp [GrPathRenderer.stencilPath, GrPathRenderer.getStencilSupport,
        GrPathRenderer.onStencilPath, GrPathRenderer.onStencilPathDefault,
        GrPathRenderer.drawPath, GrPathRenderer.canDrawPath, skAssert,
        StencilPathArgs.validate, DrawPathArgs.validate, makeCanDrawArgs_fPath,
        synthArgs_fPath, synthArgs_fUserStencilSettings, kIncrementStencil_isUnused,
        hover, hsup, hemp, hinv, hcan]
  · simp [GrPathRenderer.stencilPath, GrPathRenderer.getStencilSupport,
      GrPathRenderer.onStencilPath, GrPathRenderer.onStencilPathDefault,
      GrPathRenderer.drawPath, skAssert, StencilPathArgs.validate,
      DrawPathArgs.validate, hover]

/-- C9 witness: the amended behavior at the concrete misusing strategy. -/
theorem stencilOnly_misuse_behavior_witness :
    stencilOnlyRenderer.overrideStencilPath = none ∧
    stencilOnlyRenderer.onGetStencilSupport sampleStencilArgs.fPath =
      StencilSupport.kStencilOnly ∧
    sampleStencilArgs.fPath.isEmpty = false ∧
    sampleStencilArgs.fPath.isInverseFillType = false ∧
    (stencilOnlyRenderer.stencilPath true sampleStencilArgs = none ∧
     stencilOnlyRenderer.stencilPath false sampleStencilArgs =
       some (stencilOnlyRenderer.onDrawPath
         (synthesizedStencilDrawArgs sampleStencilArgs))) :=
  ⟨rfl, rfl, rfl, rfl,
    stencilOnly_misuse_behavior stencilOnlyRenderer sampleStencilArgs
      rfl rfl rfl rfl⟩

/-- C3: starting from a zero-initialized stencil buffer, the default
stencil-only effect leaves every covered pixel with the non-zero value
0xffff (the replace reference of the synthesized rule) and leaves every
uncovered pixel — for any prior buffer contents — exactly as it was:
it never clears and never touches stencil bits outside the path. -/
theorem stencilOnlyDefaultEffect_isolation (covered : Int × Int → Bool)
    (buf : Int × Int → Nat) (p : Int × Int) :
    (covered p = true →
      stencilOnlyDefaultEffect covered (fun _ => 0) p = 0xffff ∧
      stencilOnlyDefaultEffect covered (fun _ => 0) p ≠ 0) ∧
    (covered p = false → stencilOnlyDefaultEffect covered buf p = buf p) := by
  constructor
  · intro h
    refine ⟨?_, ?_⟩ <;> simp only [stencilOnlyDefaultEffect, h, if_true] <;> decide
  · intro h
    simp [stencilOnlyDefaultEffect, h]
